import Mathlib

/-!
Verification of the shai interactive streaming-request controller.

Shallow embedding of the Rust sources:
  * `src/openai.rs`  — streaming protocol adapter (`OpenAIGPTModel::send_streaming`)
  * `src/cli.rs`     — session controller (`ShaiUI`), code-block extraction
                       (`extract_code_blocks`), response accumulator.

External I/O (terminal drawing, HTTP transport, file system) is abstracted:
the outcome of an I/O action is a parameter of the embedded function
(e.g. the list of event frames a connection delivered, the result of reading
the edit file).  A Rust panic is modelled as `Option.none` / a `panicked`
flag; everything else is total and executable.
-/

namespace Shai

/-! ## Streaming protocol adapter (src/openai.rs) -/

/-- `MessageChunk` (openai.rs 159-166): the `delta` of one streamed choice.
Untagged: role preamble, a content fragment, or an empty stop marker. -/
inductive MessageChunk where
  | role (r : String)
  | content (c : String)
  | stop
deriving DecidableEq, Repr

/-- `ResponseChunk` (openai.rs 146-157), restricted to the only field the
code reads: the `delta` of each element of `choices`. -/
structure ResponseChunk where
  choices : List MessageChunk
deriving DecidableEq, Repr

/-- The `data` payload of one server-sent event after eventsource decoding:
the literal sentinel `[DONE]`, a payload that parses as a `ResponseChunk`,
or a payload whose JSON does not match that shape (serde error). -/
inductive FrameData where
  | done
  | chunk (c : ResponseChunk)
  | malformed
deriving DecidableEq, Repr

/-- One item of the eventsource stream as polled by the map closure in
`send_streaming` (openai.rs 219-230): either an `Err` from the transport
layer (connection failure, non-UTF8 payload, interrupted stream) or an `Ok`
event carrying its `data`. -/
inductive EventItem where
  | err
  | data (d : FrameData)
deriving DecidableEq, Repr

/-- The map closure of `send_streaming` (openai.rs 219-230) applied to one
event item.  `none` models a Rust panic:
  * `response.expect("interrupted stream")` on a transport `Err`;
  * `serde_json::from_str(..).unwrap()` on a JSON-shape mismatch;
  * indexing `choices[0]` on an empty `choices` vector.
Otherwise the yielded `String` item: the content of a content delta, the
empty string for `[DONE]`, a role delta or a stop delta. -/
def mapEvent : EventItem → Option String
  | .err => none
  | .data .done => some ""
  | .data .malformed => none
  | .data (.chunk c) =>
    match c.choices with
    | [] => none
    | delta :: _ =>
      match delta with
      | .content msg => some msg
      | _ => some ""

/-- Draining the mapped stream into an accumulator, as
`ShaiUI::stream_response` does with `append_message_response`
(cli.rs 789-791): each yielded string is appended in arrival order; a panic
inside the map closure aborts the drain with the text accumulated so far.
Returns the accumulated text and whether a panic occurred. -/
def drainUntilPanic : List EventItem → String → String × Bool
  | [], acc => (acc, false)
  | e :: es, acc =>
    match mapEvent e with
    | none => (acc, true)
    | some s => drainUntilPanic es (acc ++ s)

/-- The string fragment an event contributes to the accumulated text when it
does not panic (`""` for every non-content frame). -/
def fragOf (e : EventItem) : String := (mapEvent e).getD ""

/-- Concatenation, in arrival order, of the fragments of a frame list. -/
def fragConcat : List EventItem → String
  | [] => ""
  | e :: es => fragOf e ++ fragConcat es

/-- Credential lookup and header construction in `send_streaming`
(openai.rs 183-192).  `none` models the panic of
`std::env::var("OPENAI_API_KEY").expect(..)` when the variable is missing;
`some none` the typed `OpenAIError` returned when
`HeaderValue::from_str("Bearer ..")` rejects the credential;
`some (some ())` a successful setup. -/
inductive CredState where
  | missing
  | invalidHeaderValue
  | valid
deriving DecidableEq, Repr

def setup_credential : CredState → Option (Option Unit)
  | .missing => none
  | .invalidHeaderValue => some none
  | .valid => some (some ())

/-! ## Code block extraction (src/cli.rs 365-378)

`extract_code_blocks` applies the regex `(?s)```(?:\w+)?\n(.*?)\n``` ` with
`captures_iter`.  The embedding reproduces the regex engine's behaviour on
this pattern directly:
  * a match can only start at a triple backtick;
  * the greedy optional `(?:\w+)?` followed by `\n` succeeds exactly when
    the maximal run of word characters after the backticks is followed by a
    newline (a shorter run is always followed by a word character, which is
    not `\n`, so backtracking cannot help);
  * the lazy `(.*?)\n``` ` captures up to the earliest later occurrence of
    a newline followed by a triple backtick;
  * `captures_iter` resumes scanning after the end of the whole match, and
    advances one character when no match starts at the current position.
The scan consumes at least one character per step, so the input length is a
sufficient fuel bound for the structural recursion. -/

/-- Rust's `\w`: ASCII word character (the model texts here are ASCII). -/
def isWordChar (c : Char) : Bool := c.isAlphanum || c = '_'

/-- The backtick character (U+0060). -/
def btick : Char := Char.ofNat 96

/-- The three-character opening/closing fence. -/
def fenceChars : List Char := [btick, btick, btick]

/-- Drop the maximal leading run of word characters. -/
def dropWordChars : List Char → List Char
  | [] => []
  | c :: cs => if isWordChar c then dropWordChars cs else c :: cs

/-- Try to match the opening fence `(?:\w+)?\n` anchored at the head of the
list (after guaranteeing the triple backtick): returns the characters after
the opening newline, or `none` when the shape does not match here. -/
def matchOpenFence (l : List Char) : Option (List Char) :=
  if fenceChars.isPrefixOf l then
    match dropWordChars (l.drop 3) with
    | c :: rest => if c = '\n' then some rest else none
    | [] => none
  else none

/-- Lazy search for the closing `\n``` `: returns the captured characters
before it and the characters after the closing fence. -/
def findClose : List Char → Option (List Char × List Char)
  | [] => none
  | c :: cs =>
    if c = '\n' && fenceChars.isPrefixOf cs then
      some ([], cs.drop 3)
    else
      (findClose cs).map (fun p => (c :: p.1, p.2))

/-- Fueled scan: one unit of fuel per character consumed.  `fuel = l.length`
is always sufficient because each recursive call strictly shrinks the
list. -/
def scanBlocksAux : Nat → List Char → List (List Char)
  | 0, _ => []
  | _, [] => []
  | fuel + 1, l@(_ :: cs) =>
    match matchOpenFence l with
    | some afterOpen =>
      match findClose afterOpen with
      | some (cap, rest) => cap :: scanBlocksAux fuel rest
      | none => scanBlocksAux fuel cs
    | none => scanBlocksAux fuel cs

/-- `extract_code_blocks` (cli.rs 365-378): the ordered list of fenced
code-block bodies. -/
def extract_code_blocks (text : String) : List String :=
  (scanBlocksAux text.length text.toList).map (fun l => String.mk l)

/-- Whether a triple backtick occurs anywhere in the text ("the text
contains a fence"). -/
def containsFence : List Char → Bool
  | [] => false
  | c :: cs => fenceChars.isPrefixOf (c :: cs) || containsFence cs

/-! ## Session controller data model (src/cli.rs) -/

/-- `ShaiRequestProgress` (cli.rs 252-259): the five-phase progress
indicator; `none` is the idle state. -/
inductive ShaiRequestProgress where
  | none
  | s0
  | s1
  | s2
  | s3
deriving DecidableEq, Repr

/-- `ShaiRequestProgress::next_state` (cli.rs 285-294). -/
def ShaiRequestProgress.next_state : ShaiRequestProgress → ShaiRequestProgress
  | .none | .s3 => .s0
  | .s0 => .s1
  | .s1 => .s2
  | .s2 => .s3

/-- `ShaiState` (cli.rs 267-275): the derived display state. -/
inductive ShaiState where
  | started
  | processing
  | explanationGenerated
  | commandGenerated
  | auxExplanationGenerated
deriving DecidableEq, Repr

/-- `RequestType` (cli.rs 277-283). -/
inductive RequestType where
  | normal
  | auxiliary
deriving DecidableEq, Repr

/-- `RequestExit` (cli.rs 246-250). -/
inductive RequestExit where
  | cancel
  | exit
  | finished
deriving DecidableEq, Repr

/-- `Layout` (cli.rs 380-383). -/
inductive Layout where
  | inputResponse
  | inputResponseExplanation
deriving DecidableEq, Repr

/-- `Focus` (cli.rs 385-388). -/
inductive Focus where
  | mainResponse
  | auxiliaryResponse
deriving DecidableEq, Repr

/-- Task mode of the session: which variant of `ShaiArgs` (cli.rs 122-126)
the session was created with (payloads are CLI configuration consumed by
the excluded layers). -/
inductive ArgsKind where
  | ask
  | explain
deriving DecidableEq, Repr

/-- `Response` (cli.rs 341-351): one accumulator slot.  `scroll` is a `u16`
in the source; its value is bounded by the line count of the pane text
(far below `2^16`), so `Nat` with truncated subtraction models the
`saturating_sub` exactly. -/
structure Response where
  text : String
  scroll : Nat
  request_state : ShaiRequestProgress
deriving DecidableEq, Repr

/-- `Response::default()` (cli.rs 347-351). -/
def Response.init : Response := ⟨"", 0, .none⟩

/-- `ShaiUI` (cli.rs 353-363) without the terminal handle and the input
widget (external I/O); `input_text` mirrors the widget's value. -/
structure ShaiUI where
  args : ArgsKind
  layout : Layout
  input_text : String
  main_response : Response
  auxiliary_response : Response
  main_response_size : Nat
  response_focus : Focus
deriving DecidableEq, Repr

/-- `ShaiUI::state` (cli.rs 488-510). -/
def ShaiUI.state (ui : ShaiUI) : ShaiState :=
  match ui.main_response.request_state, ui.auxiliary_response.request_state with
  | ShaiRequestProgress.none, ShaiRequestProgress.none =>
    match ui.args with
    | .ask =>
      if ui.main_response.text.isEmpty then ShaiState.started
      else if ui.auxiliary_response.text.isEmpty then ShaiState.commandGenerated
      else ShaiState.auxExplanationGenerated
    | .explain =>
      if ui.main_response.text.isEmpty then ShaiState.started
      else ShaiState.explanationGenerated
  | _, _ => ShaiState.processing

/-- `ShaiUI::update_request_state` (cli.rs 692-712). -/
def ShaiUI.update_request_state (ui : ShaiUI) (rt : RequestType) (finished : Bool) : ShaiUI :=
  if finished then
    match rt with
    | .normal =>
      { ui with main_response := { ui.main_response with request_state := .none } }
    | .auxiliary =>
      { ui with auxiliary_response := { ui.auxiliary_response with request_state := .none } }
  else
    match rt with
    | .normal =>
      { ui with main_response :=
        { ui.main_response with request_state := ui.main_response.request_state.next_state } }
    | .auxiliary =>
      { ui with auxiliary_response :=
        { ui.auxiliary_response with request_state := ui.auxiliary_response.request_state.next_state } }

/-- `ShaiUI::clear_response` (cli.rs 813-825). -/
def ShaiUI.clear_response (ui : ShaiUI) (rt : RequestType) : ShaiUI :=
  match rt with
  | .normal =>
    { ui with
      layout := .inputResponse
      response_focus := .mainResponse
      main_response := Response.init
      auxiliary_response := Response.init }
  | .auxiliary =>
    { ui with auxiliary_response := Response.init }

/-- `ShaiUI::append_message_response` (cli.rs 827-837). -/
def ShaiUI.append_message_response (ui : ShaiUI) (response : String) (rt : RequestType) : ShaiUI :=
  match rt with
  | .normal =>
    { ui with main_response := { ui.main_response with text := ui.main_response.text ++ response } }
  | .auxiliary =>
    { ui with auxiliary_response :=
      { ui.auxiliary_response with text := ui.auxiliary_response.text ++ response } }

/-! ## The request wait/stream loop (src/cli.rs 716-811)

`send_request` spawns the network task and then loops.  The embedding takes
the spawned task's eventual result and scripts for the keyboard polls:
  * `taskResult`: `Except Unit items` — `Except.error` is the setup failure
    returned by `model_stream_request` (e.g. a rejected credential header);
    `Except.ok items` the stream, each item either a fragment or a typed
    stream error (`Except.error` again), matching the
    `Result<String, ModelError>` item type seen by `stream_response`;
  * one `WaitTick` per `WaitRequest` iteration: the key delivered by the
    100 ms poll (if any) and whether `request_task.is_finished()` observed
    completion this iteration;
  * one optional key per processed stream item for the poll inside
    `stream_response`. -/

/-- A key press the wait/stream loops react to. -/
inductive WaitKey where
  | esc
  | ctrlC
  | other
deriving DecidableEq, Repr

/-- One iteration of the `WaitRequest` arm (cli.rs 745-765). -/
structure WaitTick where
  key : Option WaitKey
  taskFinished : Bool
deriving DecidableEq, Repr

/-- How the embedded `send_request` ended: `exit e` for `Ok(e)`, `err` for
an early `Err` propagated with `?`, `pending` when the script ran out while
the loop was still waiting (the real loop would keep polling). -/
inductive SendOutcome where
  | exit (e : RequestExit)
  | err
  | pending
deriving DecidableEq, Repr

structure SendResult where
  outcome : SendOutcome
  ui : ShaiUI
deriving DecidableEq, Repr

/-- `ShaiUI::stream_response` (cli.rs 784-811): drain the stream, appending
each fragment, polling for Ctrl-C / Esc after each, advancing the progress
indicator at the end of each undisturbed iteration.  A stream item that is
an `Err` propagates out through `message?` with the state as it stands. -/
def ShaiUI.stream_response (ui : ShaiUI) (rt : RequestType) :
    List (Except Unit String) → List (Option WaitKey) → Except Unit RequestExit × ShaiUI
  | [], _ => (.ok .finished, ui)
  | item :: rest, keys =>
    match item with
    | .error e => (.error e, ui)
    | .ok s =>
      let ui1 := ui.append_message_response s rt
      let k := keys.headD Option.none
      match k with
      | some .ctrlC => (.ok .exit, ui1)
      | some .esc => (.ok .cancel, ui1)
      | _ => (ui1.update_request_state rt false).stream_response rt rest (keys.tail)

/-- The post-`WaitRequest` phase of `send_request` (cli.rs 766-781): await
the task; a setup error propagates with `?` *before* the final
`update_request_state(_, true)`; the result of `stream_response` is broken
out of the loop, after which the final `update_request_state(_, true)`
always runs. -/
def ShaiUI.streamPhase (ui : ShaiUI) (rt : RequestType)
    (taskResult : Except Unit (List (Except Unit String)))
    (keys : List (Option WaitKey)) : SendResult :=
  match taskResult with
  | .error _ => ⟨.err, ui⟩
  | .ok items =>
    let (res, ui1) := ui.stream_response rt items keys
    let ui2 := ui1.update_request_state rt true
    match res with
    | .ok e => ⟨.exit e, ui2⟩
    | .error _ => ⟨.err, ui2⟩

/-- The loop of `send_request` (cli.rs 742-781).  Each `WaitRequest`
iteration first handles a polled key (Esc breaks with `Cancel`, Ctrl-C with
`Exit` — both then get the final `update_request_state(_, true)`), then
checks `request_task.is_finished()`; on completion it switches to
`Streaming` and calls `clear_response`, and the end-of-iteration
`update_request_state(_, false)` still runs before the `Streaming` arm
takes over on the next iteration. -/
def ShaiUI.send_request (ui : ShaiUI) (rt : RequestType)
    (taskResult : Except Unit (List (Except Unit String))) :
    List WaitTick → List (Option WaitKey) → SendResult
  | [], _ => ⟨.pending, ui⟩
  | t :: rest, keys =>
    match t.key with
    | some .esc => ⟨.exit .cancel, ui.update_request_state rt true⟩
    | some .ctrlC => ⟨.exit .exit, ui.update_request_state rt true⟩
    | _ =>
      if t.taskFinished then
        ((ui.clear_response rt).update_request_state rt false).streamPhase rt taskResult keys
      else
        (ui.update_request_state rt false).send_request rt taskResult rest keys

/-! ## Scrolling (src/cli.rs 571-611) -/

/-- Direction of a Ctrl-U / Ctrl-D scroll intent. -/
inductive ScrollDir where
  | up
  | down
deriving DecidableEq, Repr

/-- Rust `str::lines().count()`: pieces after splitting on `\n`, the final
piece dropped when empty (a trailing `\r` does not change the count). -/
def lineCount (s : String) : Nat :=
  if s.isEmpty then 0
  else s.toList.count '\n' + (if s.toList.getLast? = some '\n' then 0 else 1)

/-- One scroll step of the focused pane (cli.rs 580-610): `page` is the
line count of the pane's text, `half_page = max(page/2, 1)`; down clamps at
`page` with `min`, up uses `saturating_sub` (truncated `Nat` subtraction). -/
def scroll_step (page : Nat) (scroll : Nat) : ScrollDir → Nat
  | .down => min (scroll + max (page / 2) 1) page
  | .up => scroll - max (page / 2) 1

/-- A sequence of scroll intents applied to an offset. -/
def applyScrolls (page : Nat) (ops : List ScrollDir) (scroll : Nat) : Nat :=
  ops.foldl (scroll_step page) scroll

/-! ## Session end (src/cli.rs 456-486) -/

/-- `WriteBuffer` (cli.rs 235-239): the disposition returned by the
mainloop (`Yes` = accept/write-rendered, `Raw` = accept-raw, `No` =
discard). -/
inductive WriteBuffer where
  | yes
  | raw
  | no
deriving DecidableEq, Repr

/-- The content `ShaiUI::run` writes to the edit file for a disposition
(cli.rs 466-478): `Yes` writes the extracted code blocks joined with
newlines, falling back to the raw text when none were found; `Raw` writes
the text verbatim; `No` writes nothing. -/
def write_content (wb : WriteBuffer) (text : String) : Option String :=
  match wb with
  | .yes =>
    let code_blocks := extract_code_blocks text
    if code_blocks.isEmpty then some text
    else some (String.intercalate "\n" code_blocks)
  | .raw => some text
  | .no => Option.none

/-- The file write performed by `ShaiUI::run` (cli.rs 464-480): only in
`Ask` mode with an edit file configured. -/
def run_write (args : ArgsKind) (editFileConfigured : Bool) (wb : WriteBuffer)
    (mainText : String) : Option String :=
  match args with
  | .ask => if editFileConfigured then write_content wb mainText else Option.none
  | .explain => Option.none

/-! ## Initialization (src/cli.rs 418-443) -/

/-- The initial input-field text computed by `ShaiUI::initialization`
(cli.rs 424-429): `edit_file().and_then(|f| read_to_string(f).ok())
.map(trim).unwrap_or_default()`.  The outer `Option` is whether an edit
file is configured, the inner one the result of reading it (`none` = the
read failed; `.ok()` discards the error). -/
def initial_input_text (editFileRead : Option (Option String)) : String :=
  match editFileRead with
  | Option.none => ""
  | some readResult =>
    match readResult with
    | Option.none => ""
    | some s => s.trim

/-- `ShaiUI::initialization` (cli.rs 418-443) after the terminal handle is
obtained: a total function of the task mode and the edit-file read result —
there is no failure path depending on the file read. -/
def initialization (args : ArgsKind) (editFileRead : Option (Option String)) : ShaiUI :=
  { args := args
    layout := .inputResponse
    input_text := initial_input_text editFileRead
    main_response := Response.init
    auxiliary_response := Response.init
    main_response_size := 3
    response_focus := .mainResponse }

/-! ## Helper lemmas -/

lemma update_request_state_main_text (ui : ShaiUI) (rt : RequestType) (b : Bool) :
    (ui.update_request_state rt b).main_response.text = ui.main_response.text := by
  cases rt <;> cases b <;> rfl

lemma update_request_state_main_scroll (ui : ShaiUI) (rt : RequestType) (b : Bool) :
    (ui.update_request_state rt b).main_response.scroll = ui.main_response.scroll := by
  cases rt <;> cases b <;> rfl

lemma update_request_state_normal_aux (ui : ShaiUI) (b : Bool) :
    (ui.update_request_state .normal b).auxiliary_response = ui.auxiliary_response := by
  cases b <;> rfl

lemma update_request_state_input_text (ui : ShaiUI) (rt : RequestType) (b : Bool) :
    (ui.update_request_state rt b).input_text = ui.input_text := by
  cases rt <;> cases b <;> rfl

lemma update_request_state_layout (ui : ShaiUI) (rt : RequestType) (b : Bool) :
    (ui.update_request_state rt b).layout = ui.layout := by
  cases rt <;> cases b <;> rfl

lemma update_request_state_focus (ui : ShaiUI) (rt : RequestType) (b : Bool) :
    (ui.update_request_state rt b).response_focus = ui.response_focus := by
  cases rt <;> cases b <;> rfl

lemma update_request_state_args (ui : ShaiUI) (rt : RequestType) (b : Bool) :
    (ui.update_request_state rt b).args = ui.args := by
  cases rt <;> cases b <;> rfl

lemma update_request_state_true_main_state (ui : ShaiUI) :
    (ui.update_request_state .normal true).main_response.request_state =
      ShaiRequestProgress.none := rfl

/-- A list with no fence nowhere has the fence as a prefix. -/
lemma not_prefixOf_of_not_containsFence {l : List Char} (h : containsFence l = false) :
    fenceChars.isPrefixOf l = false := by
  cases l with
  | nil => rfl
  | cons c cs =>
    simp only [containsFence, Bool.or_eq_false_iff] at h
    exact h.1

lemma containsFence_tail {c : Char} {cs : List Char}
    (h : containsFence (c :: cs) = false) : containsFence cs = false := by
  simp only [containsFence, Bool.or_eq_false_iff] at h
  exact h.2

/-- The scan finds nothing in fence-free text, whatever the fuel. -/
lemma scanBlocksAux_eq_nil_of_no_fence :
    ∀ (fuel : Nat) (l : List Char), containsFence l = false → scanBlocksAux fuel l = []
  | 0, l, _ => by cases l <;> rfl
  | _ + 1, [], _ => rfl
  | fuel + 1, c :: cs, h => by
    have hpre : fenceChars.isPrefixOf (c :: cs) = false := not_prefixOf_of_not_containsFence h
    have htail := containsFence_tail h
    simp only [scanBlocksAux, matchOpenFence, hpre, Bool.false_eq_true, if_false]
    exact scanBlocksAux_eq_nil_of_no_fence fuel cs htail

/-! ## Claims -/

/-- Claim C1 (code_bug): the spec requires a transport failure, non-UTF8
payload or JSON-shape mismatch mid-stream to surface as a typed
`StreamError` on the next pulled item, without crashing, retaining the
already-appended fragments.  The adapter's map closure instead panics:
`response.expect("interrupted stream")` on a transport error and
`serde_json::from_str(..).unwrap()` on a shape mismatch (openai.rs
220/225).  After fragments `["Par", "tial"]` the accumulated text is
`"Partial"` when a transport error arrives, and the drain aborts with a
panic (`true`) instead of yielding a typed error item. -/
theorem adapter_panic_on_stream_failure :
    mapEvent EventItem.err = Option.none ∧
    mapEvent (EventItem.data FrameData.malformed) = Option.none ∧
    drainUntilPanic
      [EventItem.data (FrameData.chunk ⟨[MessageChunk.content "Par"]⟩),
       EventItem.data (FrameData.chunk ⟨[MessageChunk.content "tial"]⟩),
       EventItem.err] "" = ("Partial", true) := by
  refine ⟨rfl, rfl, ?_⟩
  decide

/-- Claim C5, counterexample: the literal `[DONE]` frame does not terminate
the fragment sequence and does emit a final item — the map closure yields
`""` for it (openai.rs 221-223), and a frame arriving after `[DONE]` is
still processed. -/
theorem done_frame_emits_fragment_cex :
    mapEvent (EventItem.data FrameData.done) = some "" ∧
    drainUntilPanic
      [EventItem.data FrameData.done,
       EventItem.data (FrameData.chunk ⟨[MessageChunk.content "X"]⟩)] "" = ("X", false) := by
  refine ⟨rfl, ?_⟩
  decide

/-- Claim C5, amended: a frame whose first delta is a content field yields
that string as one fragment, in frame-arrival order; a role-only delta, an
empty stop delta and the `[DONE]` sentinel each yield the empty-string
fragment — nothing is filtered, but appending the empty fragment leaves the
accumulated text unchanged, so draining any panic-free frame list
accumulates exactly the concatenation of the content strings in order (the
sequence ends when the underlying event stream ends, not at `[DONE]`). -/
theorem adapter_fragment_semantics :
    (∀ (c : String) (rest : List MessageChunk),
      mapEvent (EventItem.data (FrameData.chunk ⟨MessageChunk.content c :: rest⟩)) = some c) ∧
    (∀ (r : String) (rest : List MessageChunk),
      mapEvent (EventItem.data (FrameData.chunk ⟨MessageChunk.role r :: rest⟩)) = some "") ∧
    (∀ rest : List MessageChunk,
      mapEvent (EventItem.data (FrameData.chunk ⟨MessageChunk.stop :: rest⟩)) = some "") ∧
    mapEvent (EventItem.data FrameData.done) = some "" ∧
    (∀ (es : List EventItem) (acc : String),
      (∀ e ∈ es, mapEvent e ≠ Option.none) →
      drainUntilPanic es acc = (acc ++ fragConcat es, false)) := by
  refine ⟨fun c rest => rfl, fun r rest => rfl, fun rest => rfl, rfl, ?_⟩
  intro es
  induction es with
  | nil => intro acc _; simp [drainUntilPanic, fragConcat]
  | cons e es ih =>
    intro acc h
    obtain ⟨s, hs⟩ : ∃ s, mapEvent e = some s := by
      cases hme : mapEvent e with
      | none => exact absurd hme (h e (List.mem_cons_self e es))
      | some s => exact ⟨s, rfl⟩
    have htail : ∀ e' ∈ es, mapEvent e' ≠ Option.none :=
      fun e' he' => h e' (List.mem_cons_of_mem e he')
    simp only [drainUntilPanic, hs, ih (acc ++ s) htail, fragConcat, fragOf, hs,
      Option.getD_some, String.append_assoc]

/-- Claim C5 witness. -/
theorem adapter_fragment_semantics_witness :
    mapEvent (EventItem.data (FrameData.chunk ⟨[MessageChunk.content "Hel"]⟩)) = some "Hel" ∧
    drainUntilPanic
      [EventItem.data (FrameData.chunk ⟨[MessageChunk.content "Hel"]⟩),
       EventItem.data (FrameData.chunk ⟨[MessageChunk.content "lo"]⟩)] "" =
      ("" ++ fragConcat
        [EventItem.data (FrameData.chunk ⟨[MessageChunk.content "Hel"]⟩),
         EventItem.data (FrameData.chunk ⟨[MessageChunk.content "lo"]⟩)], false) :=
  ⟨adapter_fragment_semantics.1 "Hel" [],
   adapter_fragment_semantics.2.2.2.2
     [EventItem.data (FrameData.chunk ⟨[MessageChunk.content "Hel"]⟩),
      EventItem.data (FrameData.chunk ⟨[MessageChunk.content "lo"]⟩)] "" (by decide)⟩

/-- Claim C8: `extract_code_blocks` returns the ordered fenced code-block
bodies: on the spec's example it returns exactly `["A", "B"]`, and any text
containing no triple-backtick fence yields the empty list. -/
theorem extract_code_blocks_spec :
    extract_code_blocks "```rust\nA\n```\n```\nB\n```" = ["A", "B"] ∧
    (∀ t : String, containsFence t.toList = false → extract_code_blocks t = []) := by
  constructor
  · decide
  · intro t h
    unfold extract_code_blocks
    rw [scanBlocksAux_eq_nil_of_no_fence t.length t.toList h]
    rfl

/-- Claim C8 witness. -/
theorem extract_code_blocks_spec_witness :
    extract_code_blocks "plain prose, no fence" = [] :=
  extract_code_blocks_spec.2 "plain prose, no fence" (by decide)

/-- Claim C2: the displayed state is derived each render: if either slot's
progress indicator is not idle the state is `Processing` regardless of text
contents; otherwise, in `Ask` mode, empty main text gives `Started`,
non-empty main with empty auxiliary gives `CommandGenerated`, both
non-empty give `AuxExplanationGenerated`; in `Explain` mode non-empty main
gives `ExplanationGenerated` (cli.rs 488-510). -/
theorem state_derivation (ui : ShaiUI) :
    ((ui.main_response.request_state ≠ ShaiRequestProgress.none ∨
      ui.auxiliary_response.request_state ≠ ShaiRequestProgress.none) →
      ui.state = ShaiState.processing) ∧
    (ui.main_response.request_state = ShaiRequestProgress.none →
      ui.auxiliary_response.request_state = ShaiRequestProgress.none →
      ((ui.args = ArgsKind.ask →
        (ui.main_response.text.isEmpty = true → ui.state = ShaiState.started) ∧
        (ui.main_response.text.isEmpty = false → ui.auxiliary_response.text.isEmpty = true →
          ui.state = ShaiState.commandGenerated) ∧
        (ui.main_response.text.isEmpty = false → ui.auxiliary_response.text.isEmpty = false →
          ui.state = ShaiState.auxExplanationGenerated)) ∧
       (ui.args = ArgsKind.explain →
        (ui.main_response.text.isEmpty = true → ui.state = ShaiState.started) ∧
        (ui.main_response.text.isEmpty = false →
          ui.state = ShaiState.explanationGenerated)))) := by
  obtain ⟨args, layout, it, ⟨mt, ms, mrs⟩, ⟨atx, asc, ars⟩, sz, fo⟩ := ui
  refine ⟨?_, ?_⟩
  · intro h
    cases mrs <;> cases ars <;> first
      | rfl
      | (rcases h with h | h <;> exact absurd rfl h)
  · intro hm ha
    simp only at hm ha
    subst hm; subst ha
    refine ⟨?_, ?_⟩
    · intro harg
      simp only at harg
      subst harg
      refine ⟨fun hmt => ?_, fun hmt hat => ?_, fun hmt hat => ?_⟩
      · simp [ShaiUI.state, hmt]
      · simp [ShaiUI.state, hmt, hat]
      · simp [ShaiUI.state, hmt, hat]
    · intro harg
      simp only at harg
      subst harg
      refine ⟨fun hmt => ?_, fun hmt => ?_⟩ <;> simp [ShaiUI.state, hmt]

/-- Claim C2 witness. -/
theorem state_derivation_witness :
    (⟨ArgsKind.ask, Layout.inputResponse, "", ⟨"x", 0, ShaiRequestProgress.s1⟩,
      Response.init, 3, Focus.mainResponse⟩ : ShaiUI).state = ShaiState.processing ∧
    (⟨ArgsKind.ask, Layout.inputResponse, "", ⟨"", 0, ShaiRequestProgress.none⟩,
      Response.init, 3, Focus.mainResponse⟩ : ShaiUI).state = ShaiState.started ∧
    (⟨ArgsKind.ask, Layout.inputResponse, "", ⟨"ls", 0, ShaiRequestProgress.none⟩,
      Response.init, 3, Focus.mainResponse⟩ : ShaiUI).state = ShaiState.commandGenerated ∧
    (⟨ArgsKind.ask, Layout.inputResponseExplanation, "",
      ⟨"ls", 0, ShaiRequestProgress.none⟩, ⟨"lists files", 0, ShaiRequestProgress.none⟩, 3,
      Focus.auxiliaryResponse⟩ : ShaiUI).state = ShaiState.auxExplanationGenerated ∧
    (⟨ArgsKind.explain, Layout.inputResponse, "", ⟨"it lists", 0, ShaiRequestProgress.none⟩,
      Response.init, 3, Focus.mainResponse⟩ : ShaiUI).state =
      ShaiState.explanationGenerated :=
  ⟨(state_derivation _).1 (Or.inl (by decide)),
   ((((state_derivation _).2 rfl rfl).1 rfl).1) rfl,
   ((((state_derivation _).2 rfl rfl).1 rfl).2.1) rfl rfl,
   ((((state_derivation _).2 rfl rfl).1 rfl).2.2) rfl rfl,
   ((((state_derivation _).2 rfl rfl).2 rfl).2) rfl⟩

/-- Claim C6, counterexample: the code clamps a scroll-down at the line
count itself, not at `max(1, line_count - 1)`: with the two-line text
`"a\nb"` two scroll-downs reach offset `2`, which exceeds
`max 1 (2 - 1) = 1` (cli.rs 590-610). -/
theorem scroll_bound_cex :
    lineCount "a\nb" = 2 ∧
    applyScrolls (lineCount "a\nb") [ScrollDir.down, ScrollDir.down] 0 = 2 ∧
    ¬(applyScrolls (lineCount "a\nb") [ScrollDir.down, ScrollDir.down] 0 ≤
        max 1 (lineCount "a\nb" - 1)) := by
  decide

/-- Claim C6, amended: for every sequence of scroll-up/scroll-down intents
on a pane with `page = line_count` lines, starting from an offset at most
`page`, the offset never goes below `0` and never exceeds `page` itself
(down clamps at `page` with `min`, up saturates at `0`). -/
theorem scroll_offset_bounds (page : Nat) (ops : List ScrollDir) (s : Nat) (h : s ≤ page) :
    0 ≤ applyScrolls page ops s ∧ applyScrolls page ops s ≤ page := by
  refine ⟨Nat.zero_le _, ?_⟩
  induction ops generalizing s with
  | nil => exact h
  | cons op ops ih =>
    simp only [applyScrolls, List.foldl_cons] at *
    apply ih
    cases op with
    | down => exact min_le_right _ _
    | up => exact le_trans (Nat.sub_le _ _) h

/-- Claim C6 witness. -/
theorem scroll_offset_bounds_witness :
    0 ≤ applyScrolls (lineCount "a\nb") [ScrollDir.down, ScrollDir.up, ScrollDir.down] 0 ∧
    applyScrolls (lineCount "a\nb") [ScrollDir.down, ScrollDir.up, ScrollDir.down] 0 ≤
      lineCount "a\nb" :=
  scroll_offset_bounds (lineCount "a\nb") [ScrollDir.down, ScrollDir.up, ScrollDir.down] 0
    (by decide)

/-- Claim C7: on session end in `Ask` mode with an edit file configured,
the accept disposition (`WriteBuffer.yes`) writes the fenced code-block
bodies joined by newlines, falling back to the raw text when no fence was
found, while accept-raw (`WriteBuffer.raw`) writes the text verbatim; on a
non-empty response with one fenced block surrounded by prose the two
dispositions write different content (cli.rs 464-480). -/
theorem write_dispositions :
    (∀ t : String, write_content WriteBuffer.raw t = some t) ∧
    (∀ t : String, extract_code_blocks t = [] → write_content WriteBuffer.yes t = some t) ∧
    (∀ t : String, extract_code_blocks t ≠ [] →
      write_content WriteBuffer.yes t =
        some (String.intercalate "\n" (extract_code_blocks t))) ∧
    (∀ (wb : WriteBuffer) (m : String), run_write ArgsKind.ask true wb m = write_content wb m) ∧
    (write_content WriteBuffer.yes "Some prose.\n```\nA\n```\nMore prose." = some "A" ∧
     write_content WriteBuffer.raw "Some prose.\n```\nA\n```\nMore prose." =
       some "Some prose.\n```\nA\n```\nMore prose." ∧
     write_content WriteBuffer.yes "Some prose.\n```\nA\n```\nMore prose." ≠
       write_content WriteBuffer.raw "Some prose.\n```\nA\n```\nMore prose.") := by
  refine ⟨fun t => rfl, fun t h => ?_, fun t h => ?_, fun wb m => rfl, ?_⟩
  · simp [write_content, h]
  · cases hcb : extract_code_blocks t with
    | nil => exact absurd hcb h
    | cons b bs => simp [write_content, hcb]
  · refine ⟨by decide, rfl, by decide⟩

/-- Claim C7 witness. -/
theorem write_dispositions_witness :
    write_content WriteBuffer.yes "no fence at all" = some "no fence at all" ∧
    write_content WriteBuffer.yes "Some prose.\n```\nA\n```\nMore prose." =
      some (String.intercalate "\n"
        (extract_code_blocks "Some prose.\n```\nA\n```\nMore prose.")) :=
  ⟨write_dispositions.2.1 "no fence at all" (by decide),
   write_dispositions.2.2.1 "Some prose.\n```\nA\n```\nMore prose." (by decide)⟩

/-- Claim C3, counterexample: a setup error does not leave the slot in its
pre-request state.  With main text `"old"` before the request, a request
whose task resolves to a setup error (`Except.error`) is detected only
after `clear_response` ran at the waiting→streaming transition
(cli.rs 761-764): the submission fails (`err`), but the main slot's text
has been cleared to `""`, not kept at `"old"`. -/
theorem setup_error_clears_slot_cex :
    (ShaiUI.send_request
      ⟨ArgsKind.ask, Layout.inputResponse, "", ⟨"old", 0, ShaiRequestProgress.none⟩,
        Response.init, 3, Focus.mainResponse⟩
      RequestType.normal (Except.error ()) [⟨Option.none, true⟩] []).outcome =
      SendOutcome.err ∧
    (ShaiUI.send_request
      ⟨ArgsKind.ask, Layout.inputResponse, "", ⟨"old", 0, ShaiRequestProgress.none⟩,
        Response.init, 3, Focus.mainResponse⟩
      RequestType.normal (Except.error ()) [⟨Option.none, true⟩] []).ui.main_response.text =
      "" ∧
    ("" : String) ≠ "old" := by
  decide

/-- Claim C3, amended: a setup error returned by the request task (e.g. a
credential rejected by header construction, openai.rs 188-192) aborts the
attempt and surfaces to the controller as a failed submission (an `Err`
propagated out of `send_request`), but the affected slot does not stay in
its pre-request state: the controller clears the destination slot — for a
main request both slots, layout and focus — when it sees the task finish,
before detecting the failure, and the early `?` return skips the final
indicator reset, leaving the progress indicator at `S0`.  A missing
credential is not surfaced at all: `env::var(..).expect(..)` panics
(openai.rs 183-185). -/
theorem setup_error_failed_submission (ui : ShaiUI) (rest : List WaitTick)
    (keys : List (Option WaitKey)) :
    (ui.send_request RequestType.normal (Except.error ())
      (⟨Option.none, true⟩ :: rest) keys).outcome = SendOutcome.err ∧
    (ui.send_request RequestType.normal (Except.error ())
      (⟨Option.none, true⟩ :: rest) keys).ui =
      { ui with
        layout := Layout.inputResponse
        response_focus := Focus.mainResponse
        main_response := ⟨"", 0, ShaiRequestProgress.s0⟩
        auxiliary_response := Response.init } ∧
    setup_credential CredState.missing = Option.none ∧
    setup_credential CredState.invalidHeaderValue = some Option.none :=
  ⟨rfl, rfl, rfl, rfl⟩

/-- Claim C4, counterexample: cancelling with Esc while the request is
still waiting does not leave the slot's text empty — it leaves it exactly
as it was before the request.  With pre-request main text `"old"` (a
resubmission after a finished answer), Esc during the wait returns the
`Cancel` exit with the text still `"old"`, not `""` (cli.rs 745-760). -/
theorem cancel_waiting_text_not_cleared_cex :
    (ShaiUI.send_request
      ⟨ArgsKind.ask, Layout.inputResponse, "", ⟨"old", 0, ShaiRequestProgress.none⟩,
        Response.init, 3, Focus.mainResponse⟩
      RequestType.normal (Except.error ()) [⟨some WaitKey.esc, false⟩] []).outcome =
      SendOutcome.exit RequestExit.cancel ∧
    (ShaiUI.send_request
      ⟨ArgsKind.ask, Layout.inputResponse, "", ⟨"old", 0, ShaiRequestProgress.none⟩,
        Response.init, 3, Focus.mainResponse⟩
      RequestType.normal (Except.error ())
      [⟨some WaitKey.esc, false⟩] []).ui.main_response.text = "old" ∧
    ("old" : String) ≠ "" := by
  decide

/-- What cancel-while-waiting must preserve: the `Cancel` exit, the
pre-request text, scroll, auxiliary slot, input, layout and focus, with
the progress indicator back to idle. -/
def cancelKeepsPreRequestState (ui : ShaiUI) (r : SendResult) : Prop :=
  r.outcome = SendOutcome.exit RequestExit.cancel ∧
  r.ui.main_response.text = ui.main_response.text ∧
  r.ui.main_response.scroll = ui.main_response.scroll ∧
  r.ui.main_response.request_state = ShaiRequestProgress.none ∧
  r.ui.auxiliary_response = ui.auxiliary_response ∧
  r.ui.input_text = ui.input_text ∧
  r.ui.layout = ui.layout ∧
  r.ui.response_focus = ui.response_focus

/-- Claim C4, amended: for every Esc pressed while the request is still in
the waiting phase (any number of quiet poll iterations in which the task
was never seen finished, then Esc), `send_request` returns the `Cancel`
exit and the target slot keeps exactly its pre-request state — text,
scroll, auxiliary slot, input, layout and focus unchanged, progress back
to idle.  In particular the slot is never populated by the merely accepted
request; its text is empty afterwards only if it was empty before. -/
theorem cancel_while_waiting_preserves_state (ui : ShaiUI)
    (pre rest : List WaitTick) (b : Bool) (keys : List (Option WaitKey))
    (tr : Except Unit (List (Except Unit String)))
    (hq : ∀ t ∈ pre,
      (t.key = Option.none ∨ t.key = some WaitKey.other) ∧ t.taskFinished = false) :
    cancelKeepsPreRequestState ui
      (ui.send_request RequestType.normal tr
        (pre ++ ⟨some WaitKey.esc, b⟩ :: rest) keys) := by
  induction pre generalizing ui with
  | nil =>
    exact ⟨rfl, update_request_state_main_text ui _ _, update_request_state_main_scroll ui _ _,
      rfl, update_request_state_normal_aux ui _, update_request_state_input_text ui _ _,
      update_request_state_layout ui _ _, update_request_state_focus ui _ _⟩
  | cons t pre ih =>
    obtain ⟨hk, hf⟩ := hq t (List.mem_cons_self t pre)
    have hq' : ∀ t' ∈ pre,
        (t'.key = Option.none ∨ t'.key = some WaitKey.other) ∧ t'.taskFinished = false :=
      fun t' ht' => hq t' (List.mem_cons_of_mem t ht')
    obtain ⟨tk, tf⟩ := t
    simp only at hk hf
    subst hf
    have step :
        ShaiUI.send_request ui RequestType.normal tr
          ((⟨tk, false⟩ : WaitTick) :: (pre ++ ⟨some WaitKey.esc, b⟩ :: rest)) keys =
        (ui.update_request_state RequestType.normal false).send_request RequestType.normal tr
          (pre ++ ⟨some WaitKey.esc, b⟩ :: rest) keys := by
      rcases hk with hk | hk <;> subst hk <;> rfl
    simp only [List.cons_append, step]
    obtain ⟨o, t1, s1, rs1, a1, i1, l1, f1⟩ :=
      ih (ui.update_request_state RequestType.normal false) hq'
    exact ⟨o, t1.trans (update_request_state_main_text ui _ _),
      s1.trans (update_request_state_main_scroll ui _ _), rs1,
      a1.trans (update_request_state_normal_aux ui _),
      i1.trans (update_request_state_input_text ui _ _),
      l1.trans (update_request_state_layout ui _ _),
      f1.trans (update_request_state_focus ui _ _)⟩

/-- Claim C4 witness. -/
theorem cancel_while_waiting_preserves_state_witness :
    cancelKeepsPreRequestState
      ⟨ArgsKind.ask, Layout.inputResponse, "list files", ⟨"ls -la", 2, ShaiRequestProgress.none⟩,
        Response.init, 3, Focus.mainResponse⟩
      (ShaiUI.send_request
        ⟨ArgsKind.ask, Layout.inputResponse, "list files",
          ⟨"ls -la", 2, ShaiRequestProgress.none⟩, Response.init, 3, Focus.mainResponse⟩
        RequestType.normal (Except.ok [Except.ok "never reached"])
        ([⟨Option.none, false⟩, ⟨some WaitKey.other, false⟩] ++
          ⟨some WaitKey.esc, false⟩ :: []) []) :=
  cancel_while_waiting_preserves_state
    ⟨ArgsKind.ask, Layout.inputResponse, "list files", ⟨"ls -la", 2, ShaiRequestProgress.none⟩,
      Response.init, 3, Focus.mainResponse⟩
    [⟨Option.none, false⟩, ⟨some WaitKey.other, false⟩] [] false []
    (Except.ok [Except.ok "never reached"]) (by decide)

/-- Claim C9: at the waiting→streaming transition `send_request` calls
`clear_response` (cli.rs 761-764); for a main (`Normal`) request it resets
both responses — text, scroll and progress — and also resets the layout to
input+main and the focus to the main pane, while for an auxiliary
(`Explain`) request it resets only the auxiliary response and leaves every
field of the main response unchanged (cli.rs 813-825). -/
theorem clear_response_frame (ui : ShaiUI) :
    ((ui.clear_response RequestType.normal).main_response.text = "" ∧
     (ui.clear_response RequestType.normal).main_response.scroll = 0 ∧
     (ui.clear_response RequestType.normal).main_response.request_state =
       ShaiRequestProgress.none ∧
     (ui.clear_response RequestType.normal).auxiliary_response = Response.init ∧
     (ui.clear_response RequestType.normal).layout = Layout.inputResponse ∧
     (ui.clear_response RequestType.normal).response_focus = Focus.mainResponse ∧
     (ui.clear_response RequestType.normal).args = ui.args ∧
     (ui.clear_response RequestType.normal).input_text = ui.input_text) ∧
    ((ui.clear_response RequestType.auxiliary).auxiliary_response = Response.init ∧
     (ui.clear_response RequestType.auxiliary).main_response = ui.main_response ∧
     (ui.clear_response RequestType.auxiliary).layout = ui.layout ∧
     (ui.clear_response RequestType.auxiliary).response_focus = ui.response_focus ∧
     (ui.clear_response RequestType.auxiliary).input_text = ui.input_text) ∧
    (∀ (tr : Except Unit (List (Except Unit String))) (rest : List WaitTick)
        (keys : List (Option WaitKey)) (rt : RequestType),
      ui.send_request rt tr (⟨Option.none, true⟩ :: rest) keys =
        ((ui.clear_response rt).update_request_state rt false).streamPhase rt tr keys) :=
  ⟨⟨rfl, rfl, rfl, rfl, rfl, rfl, rfl, rfl⟩, ⟨rfl, rfl, rfl, rfl, rfl⟩,
    fun _tr _rest _keys _rt => rfl⟩

/-- Claim C10: if an edit file is configured but reading it fails,
initialization still succeeds — it is a total function of the read result,
identical to the no-file case — and the initial input-field text is empty;
the read error is discarded by `.ok()` and surfaced nowhere
(cli.rs 424-429). -/
theorem initialization_read_failure (args : ArgsKind) :
    (initialization args (some Option.none)).input_text = "" ∧
    initialization args (some Option.none) = initialization args Option.none ∧
    initial_input_text (some Option.none) = "" :=
  ⟨rfl, rfl, rfl⟩

end Shai
